import Mathlib

/-!
Shallow embedding of the block-I/O elevator (src/block/elevator.c) and the
SCSI mid-layer admission/completion logic (src/drivers/scsi/scsi_lib.c)
of this repository, with theorems settling the frozen specification claims.

Machine integers: `sector_t` is a 64-bit unsigned integer; sector arithmetic
is modelled over `Nat` with explicit reduction modulo `2 ^ 64` at the points
where the C code performs wrapping arithmetic.
-/

/-- Modulus of `sector_t` (64-bit unsigned) arithmetic. -/
def M64 : Nat := 2 ^ 64

/-- Wrapping subtraction of `sector_t` values, as performed by
`__rq->sector - bio_sectors(bio)` in `elv_try_merge`. -/
def sub64 (a b : Nat) : Nat := (a + (M64 - b % M64)) % M64

/-- The request flag bits (`REQ_*` in the request's `flags` word) that the
embedded functions read or write. -/
structure RqFlags where
  started : Bool       -- REQ_STARTED
  softbarrier : Bool   -- REQ_SOFTBARRIER
  hardbarrier : Bool   -- REQ_HARDBARRIER
  sorted : Bool        -- REQ_SORTED
  nomerge : Bool       -- REQ_NOMERGE
  fs : Bool            -- REQ_CMD: the request came from the filesystem
  elvpriv : Bool       -- REQ_ELVPRIV
  quiet : Bool         -- REQ_QUIET
  dontprep : Bool      -- REQ_DONTPREP
  orderedColor : Bool  -- REQ_ORDERED_COLOR
  deriving Repr, DecidableEq

/-- A block-layer `struct request`: sector range, direction, owning disk,
the pointers tested by the merge gate (`waiting`, `special`, modelled as
"is non-null" booleans), the flag word, and the required ordered-sequence
phase of the request (`blk_ordered_req_seq`). -/
structure Request where
  sector : Nat       -- rq->sector (value of a sector_t)
  nr_sectors : Nat   -- rq->nr_sectors
  dir : Bool         -- rq_data_dir(rq): true = write
  rq_disk : Nat      -- identity of rq->rq_disk
  waiting : Bool     -- rq->waiting is non-null
  special : Bool     -- rq->special is non-null (device command attached)
  flags : RqFlags
  seq : Nat          -- required ordered-sequence phase (see `QUEUE_ORDSEQ_DRAIN`)
  rid : Nat          -- identity of the request object
  deriving Repr, DecidableEq

/-- A newly arriving I/O unit (`struct bio`): start sector, size in sectors
(`bio_sectors(bio)`), data direction and target disk
(`bio->bi_bdev->bd_disk`). -/
structure Bio where
  bi_sector : Nat
  bi_sectors : Nat   -- bio_sectors(bio)
  dir : Bool         -- bio_data_dir(bio)
  bd_disk : Nat
  deriving Repr, DecidableEq

/-- Modelled from the spec: the header macro `rq_mergeable(rq)`
(include/linux/blkdev.h, not under src/) — per the spec's merge rule a
request is a merge candidate only if it is a filesystem request that is not
yet started/dispatched, not a barrier, and not explicitly unmergeable. -/
def rq_mergeable (rq : Request) : Bool :=
  !(rq.flags.nomerge || rq.flags.started || rq.flags.softbarrier
      || rq.flags.hardbarrier) && rq.flags.fs

/-- `elv_rq_merge_ok` (src/block/elevator.c): can `bio` safely merge into
`rq`?  Requires a mergeable request, matching data direction, same disk,
no waiter, and no attached device command. -/
def elv_rq_merge_ok (rq : Request) (bio : Bio) : Bool :=
  if !rq_mergeable rq then false
  else if bio.dir != rq.dir then false
  else if rq.rq_disk == bio.bd_disk && !rq.waiting && !rq.special then true
  else false

/-- Result of a merge lookup (`ELEVATOR_NO_MERGE` / `ELEVATOR_BACK_MERGE` /
`ELEVATOR_FRONT_MERGE`). -/
inductive MergeKind where
  | noMerge
  | backMerge
  | frontMerge
  deriving Repr, DecidableEq

/-- `elv_try_merge` (src/block/elevator.c): decide whether and where `bio`
can be folded into `rq`, using wrapping `sector_t` arithmetic. -/
def elv_try_merge (rq : Request) (bio : Bio) : MergeKind :=
  if elv_rq_merge_ok rq bio then
    if (rq.sector + rq.nr_sectors) % M64 == bio.bi_sector % M64 then
      .backMerge
    else if sub64 rq.sector bio.bi_sectors == bio.bi_sector % M64 then
      .frontMerge
    else .noMerge
  else .noMerge

/-- The ordered-sequence phase numbering (BarrierState phases of the spec):
0 = none/started, 1 = drain, 2 = pre-flush, 3 = barrier write,
4 = post-flush.  `QUEUE_ORDSEQ_DRAIN` is the drain phase. -/
def QUEUE_ORDSEQ_DRAIN : Nat := 1

/-- Mark a request as a soft barrier (`rq->flags |= REQ_SOFTBARRIER`). -/
def setSoftBarrier (rq : Request) : Request :=
  { rq with flags := { rq.flags with softbarrier := true } }

/-- Modelled from the spec: the header macro `blk_barrier_rq(rq)`
(include/linux/blkdev.h, not under src/) — true for a hard-barrier
(ordering) request. -/
def blk_barrier_rq (rq : Request) : Bool := rq.flags.hardbarrier

/-- Modelled from the spec: the header macro `blk_account_rq(rq)`
(include/linux/blkdev.h, not under src/) — a request counts against the
in-flight counter when it is a filesystem request that has been started
(previously dispatched). -/
def blk_account_rq (rq : Request) : Bool := rq.flags.started && rq.flags.fs

/-- Modelled from the spec: the header macro `blk_sorted_rq(rq)` — the
request was SORT-inserted into the scheduler policy. -/
def blk_sorted_rq (rq : Request) : Bool := rq.flags.sorted

/-- Modelled from the spec: the header macro `rq_end_sector(rq)` =
`rq->sector + rq->nr_sectors` in `sector_t` arithmetic. -/
def rq_end_sector (rq : Request) : Nat := (rq.sector + rq.nr_sectors) % M64

/-- The per-device request queue (`request_queue_t`): dispatch list
(`queue_head`, head = front), the scheduler policy's pending set (modelled
as a list; the reference policy's internal order is irrelevant to the
claims proved here), the counters, merge cache, barrier-sequencer state and
congestion (plug) state. -/
structure BQueue where
  queue_head : List Request    -- dispatch list, FIFO, head = front
  pending : List Request       -- scheduler policy's pending set
  nr_sorted : Nat              -- q->nr_sorted
  in_flight : Nat              -- q->in_flight
  last_merge : Option Request  -- q->last_merge
  ordseq : Nat                 -- current ordered-sequence phase; 0 = inactive
  ordcolor : Bool              -- q->ordcolor
  plugged : Bool               -- blk_queue_plugged(q)
  unplug_thresh : Nat          -- q->unplug_thresh
  count_read : Nat             -- q->rq.count[READ]
  count_write : Nat            -- q->rq.count[WRITE]
  end_sector : Nat             -- q->end_sector
  boundary_rq : Option Request -- q->boundary_rq
  deriving Repr, DecidableEq

/-- `elv_dispatch_sort`'s tail-to-head scan of the dispatch list
(`list_for_each_prev`), operating on the reversed dispatch list
(head of the argument = tail of the dispatch list).  Breaking at an entry
inserts `rq` immediately after it; exhausting the list inserts at the
front. -/
def dispatchInsertRev (boundary : Nat) (rq : Request) :
    List Request → List Request
  | [] => [rq]
  | pos :: rest =>
    if pos.flags.softbarrier || pos.flags.hardbarrier || pos.flags.started then
      rq :: pos :: rest
    else if rq.sector ≥ boundary && pos.sector < boundary then
      pos :: dispatchInsertRev boundary rq rest
    else if rq.sector < boundary && pos.sector ≥ boundary then
      rq :: pos :: rest
    else if rq.sector ≥ pos.sector then
      rq :: pos :: rest
    else
      pos :: dispatchInsertRev boundary rq rest

/-- `elv_dispatch_sort` (src/block/elevator.c): move `rq` into the dispatch
list in sector order bounded by `q->end_sector`; invalidates the merge
cache if it pointed at `rq` and decrements `nr_sorted`. -/
def elv_dispatch_sort (q : BQueue) (rq : Request) : BQueue :=
  { q with
    last_merge := if q.last_merge = some rq then none else q.last_merge,
    nr_sorted := q.nr_sorted - 1,
    queue_head := (dispatchInsertRev q.end_sector rq q.queue_head.reverse).reverse }

/-- Modelled from the spec: one step of the reference scheduler policy's
`elevator_dispatch_fn` (the concrete policies are not under src/) — take
one request out of the policy's pending set and hand it to
`elv_dispatch_sort`. -/
def policyDispatchStep (q : BQueue) : BQueue :=
  match q.pending with
  | [] => q
  | rq :: rest => elv_dispatch_sort { q with pending := rest } rq

/-- Fuelled loop body of `elv_drain_elevator`. -/
def drainAux : Nat → BQueue → BQueue
  | 0, q => q
  | n + 1, q =>
    match q.pending with
    | [] => q
    | _ :: _ => drainAux n (policyDispatchStep q)

/-- `elv_drain_elevator` (src/block/elevator.c): dispatch repeatedly until
the scheduler policy's pending set is empty. -/
def elv_drain_elevator (q : BQueue) : BQueue :=
  drainAux q.pending.length q

/-- `elv_merge_requests` (src/block/elevator.c): after `next` has been
folded into `rq`, notify the policy (modelled from the spec: the policy's
`elevator_merge_req_fn` removes `next` from its pending set), decrement
`nr_sorted` and refresh the merge cache to `rq`. -/
def elv_merge_requests (q : BQueue) (rq next : Request) : BQueue :=
  { q with
    pending := q.pending.erase next,
    nr_sorted := q.nr_sorted - 1,
    last_merge := some rq }

/-- `elv_merged_request` (src/block/elevator.c): a bio was folded into
`rq`; refresh the merge cache. -/
def elv_merged_request (q : BQueue) (rq : Request) : BQueue :=
  { q with last_merge := some rq }

/-- Insertion positions (`ELEVATOR_INSERT_*`). -/
inductive InsertWhere where
  | front
  | back
  | sort
  | requeue
  deriving Repr, DecidableEq

/-- Externally visible effects of an insertion: whether
`__generic_unplug_device` was invoked (immediate unplug) and whether the
driver's `request_fn` was run. -/
structure InsertEff where
  unplugged : Bool
  ranRequestFn : Bool
  deriving Repr, DecidableEq

/-- The `ELEVATOR_INSERT_REQUEUE` scan of `elv_insert`: walk the dispatch
list from the front and insert `rq` before the first entry whose required
ordered-sequence phase is `≥` its own (`list_add_tail` before the break
position; append when no entry qualifies). -/
def requeueInsert (rq : Request) : List Request → List Request
  | [] => [rq]
  | p :: rest =>
    if rq.seq ≤ p.seq then rq :: p :: rest
    else p :: requeueInsert rq rest

/-- Tail of `elv_insert`: when the insertion may unplug and the queue is
plugged, compare the number of allocated requests minus the in-flight
count against `unplug_thresh` and force `__generic_unplug_device` when the
threshold is reached. -/
def elvInsertUnplugCheck (q : BQueue) (unplug_it : Bool) (ranFn : Bool) :
    BQueue × InsertEff :=
  if unplug_it && q.plugged then
    let nrq : Int := (q.count_read : Int) + (q.count_write : Int) - (q.in_flight : Int)
    if nrq ≥ (q.unplug_thresh : Int) then
      ({ q with plugged := false }, ⟨true, true⟩)
    else (q, ⟨false, ranFn⟩)
  else (q, ⟨false, ranFn⟩)

/-- `elv_insert` (src/block/elevator.c): insert `rq` at position `whre`.
FRONT: head of the dispatch list, flagged soft-barrier.  BACK: drain the
policy, append to the dispatch tail, remove the plug and run the driver.
SORT: flag sorted, increment `nr_sorted`, seed the merge cache if empty,
hand to the policy (modelled from the spec: the policy's
`elevator_add_req_fn` adds the request to its pending set).  REQUEUE:
soft-barrier, front insertion when no ordered sequence is active,
otherwise insertion in `requeueInsert` order, and never an immediate
unplug. -/
def elv_insert (q : BQueue) (rq0 : Request) (whre : InsertWhere) :
    BQueue × InsertEff :=
  match whre with
  | .front =>
    let rq := setSoftBarrier rq0
    elvInsertUnplugCheck { q with queue_head := rq :: q.queue_head } true false
  | .back =>
    let rq := setSoftBarrier rq0
    let q1 := elv_drain_elevator q
    let q2 := { q1 with queue_head := q1.queue_head ++ [rq] }
    -- blk_remove_plug(q); q->request_fn(q)
    elvInsertUnplugCheck { q2 with plugged := false } true true
  | .sort =>
    let rq := { rq0 with flags := { rq0.flags with sorted := true } }
    let lm := if q.last_merge = none && rq_mergeable rq then some rq else q.last_merge
    let q1 := { q with
                  nr_sorted := q.nr_sorted + 1,
                  last_merge := lm,
                  pending := q.pending ++ [rq] }
    elvInsertUnplugCheck q1 true false
  | .requeue =>
    let rq := setSoftBarrier rq0
    let q1 :=
      if q.ordseq = 0 then { q with queue_head := rq :: q.queue_head }
      else { q with queue_head := requeueInsert rq q.queue_head }
    elvInsertUnplugCheck q1 false false

/-- `blk_plug_device` (outside src/, modelled from the spec's plug/unplug
glossary): start the batching delay. -/
def blk_plug_device (q : BQueue) : BQueue := { q with plugged := true }

/-- `__elv_add_request` (src/block/elevator.c): stamp the ordered color,
toggle it on a hard barrier, convert SORT to BACK for barrier-flagged
requests (and for requests without scheduler-private data), update the
scheduling boundary for barrier filesystem requests, plug if requested,
then `elv_insert`. -/
def __elv_add_request (q : BQueue) (rq0 : Request) (whre : InsertWhere)
    (plug : Bool) : BQueue × InsertEff :=
  let rq := if q.ordcolor
            then { rq0 with flags := { rq0.flags with orderedColor := true } }
            else rq0
  if rq.flags.softbarrier || rq.flags.hardbarrier then
    let q1 := if blk_barrier_rq rq then { q with ordcolor := !q.ordcolor } else q
    let whre1 := if whre = .sort then .back else whre
    let q2 := if rq.flags.fs
              then { q1 with end_sector := rq_end_sector rq, boundary_rq := some rq }
              else q1
    let q3 := if plug then blk_plug_device q2 else q2
    elv_insert q3 rq whre1
  else
    let whre1 := if !rq.flags.elvpriv && whre = .sort then InsertWhere.back else whre
    let q3 := if plug then blk_plug_device q else q
    elv_insert q3 rq whre1

/-- `elv_requeue_request` (src/block/elevator.c): a previously dispatched
request is given back; decrement the in-flight count for accounted
requests, clear `REQ_STARTED`, and reinsert with `ELEVATOR_INSERT_REQUEUE`. -/
def elv_requeue_request (q : BQueue) (rq : Request) : BQueue × InsertEff :=
  let q1 := if blk_account_rq rq then { q with in_flight := q.in_flight - 1 } else q
  let rq1 := { rq with flags := { rq.flags with started := false } }
  elv_insert q1 rq1 .requeue

/-- The request a requeue places back on the dispatch list: `REQ_STARTED`
cleared by `elv_requeue_request`, `REQ_SOFTBARRIER` set by `elv_insert`'s
REQUEUE case. -/
def requeuedOf (rq : Request) : Request :=
  setSoftBarrier { rq with flags := { rq.flags with started := false } }

/-- `elv_completed_request` (src/block/elevator.c): on completion of `rq`,
decrement the in-flight count for accounted requests; then, if an ordered
sequence is active, advance past the drain phase and re-run the driver's
`request_fn` exactly when nothing is in flight, the current phase is
drain, and the head dispatch-list request requires a later phase.
`blk_ordered_complete_seq` is not under src/ and is modelled from the
spec's transition rule as advancing to the next phase.  Returns the new
queue and whether `request_fn` was re-run. -/
def elv_completed_request (q : BQueue) (rq : Request) : BQueue × Bool :=
  let q1 := if blk_account_rq rq then { q with in_flight := q.in_flight - 1 } else q
  if q1.ordseq ≠ 0 then
    match q1.queue_head with
    | [] => (q1, false)
    | first :: _ =>
      if q1.in_flight = 0 && q1.ordseq = QUEUE_ORDSEQ_DRAIN
          && first.seq > QUEUE_ORDSEQ_DRAIN then
        ({ q1 with ordseq := q1.ordseq + 1 }, true)
      else (q1, false)
  else (q1, false)

/-- `elv_dequeue_request` (src/block/elevator.c): remove `rq` from the
dispatch list; accounted requests enter the in-flight count. -/
def elv_dequeue_request (q : BQueue) (rq : Request) : BQueue :=
  { q with
    queue_head := q.queue_head.erase rq,
    in_flight := if blk_account_rq rq then q.in_flight + 1 else q.in_flight }

/-- Outcome of the driver's prepare hook (`BLKPREP_*`). -/
inductive PrepRet where
  | ok
  | defer
  | kill
  deriving Repr, DecidableEq

/-- The started-marking step of `elv_next_request`: the first time the
driver sees a request, flag it `REQ_STARTED` (also updating the copy held
in the dispatch list). -/
def elvMarkStarted (q : BQueue) (rq : Request) : BQueue × Request :=
  if rq.flags.started then (q, rq)
  else
    let rq' := { rq with flags := { rq.flags with started := true } }
    ({ q with queue_head := q.queue_head.replace rq rq' }, rq')

/-- The boundary bookkeeping of `elv_next_request`: when there is no
scheduling boundary, or `rq` is the boundary, record `rq`'s end sector and
clear the boundary. -/
def elvBoundaryUpdate (q : BQueue) (rq : Request) : BQueue :=
  if q.boundary_rq = none || q.boundary_rq = some rq then
    { q with end_sector := rq_end_sector rq, boundary_rq := none }
  else q

/-- `__elv_next_request` (src/block/elevator.c): candidate selection —
take the head of the dispatch list (gated by `blk_do_ordered`, which is
not under src/ and is modelled from the spec as a predicate deciding
whether the barrier sequencer releases the head request); when the
dispatch list is empty, pull from the scheduler policy until it too is
empty. -/
def __elv_next_request (gate : Request → Bool) : Nat → BQueue → Option (Request × BQueue)
  | 0, _ => none
  | n + 1, q =>
    match q.queue_head with
    | rq :: _ => if gate rq then some (rq, q) else none
    | [] =>
      match q.pending with
      | [] => none
      | _ :: _ => __elv_next_request gate n (policyDispatchStep q)

/-- The kill path of `elv_next_request` for `BLKPREP_KILL`: dequeue the
request, flag it `REQ_QUIET` and end it (the ended request simply leaves
the model). -/
def elvPrepKill (q : BQueue) (rq : Request) : BQueue :=
  elv_dequeue_request q rq

/-- `elv_next_request` (src/block/elevator.c): fetch the next request for
the driver; mark it started, update the scheduling boundary, and run the
driver's prepare hook (`none` = no `prep_rq_fn`): OK hands the request
out, DEFER returns nothing (the request stays at the front), KILL ends the
request and continues the loop. -/
def elv_next_request (gate : Request → Bool) (prep : Option (Request → PrepRet)) :
    Nat → BQueue → Option Request × BQueue
  | 0, q => (none, q)
  | n + 1, q =>
    match __elv_next_request gate (n + 1) q with
    | none => (none, q)
    | some (rq, q1) =>
      let (q2, rq2) := elvMarkStarted q1 rq
      let q3 := elvBoundaryUpdate q2 rq2
      if rq2.flags.dontprep then (some rq2, q3)
      else
        match prep with
        | none => (some rq2, q3)
        | some p =>
          match p rq2 with
          | .ok => (some rq2, q3)
          | .defer => (none, q3)
          | .kill => elv_next_request gate prep n (elvPrepKill q3 rq2)

/-- State of a live queue during a policy switch: the active scheduler
policy (`q->elevator`), `none` = no active policy. -/
structure SwQueue where
  elevator : Option Nat
  deriving Repr, DecidableEq

/-- `elevator_switch` (src/block/elevator.c): allocate and initialize the
new policy before detaching the old one; on allocation or initialization
failure return failure with the queue untouched; otherwise attach the new
policy, and if registering its attributes fails, restore the old policy
and report failure.  Returns (success, final queue, trace of the active
policy after each mutation of `q->elevator`). -/
def elevator_switch (q : SwQueue) (newPolicy : Nat)
    (allocOk initOk registerOk : Bool) : Bool × SwQueue × List (Option Nat) :=
  if !allocOk then (false, q, [q.elevator])
  else if !initOk then (false, q, [q.elevator])
  else
    let old := q.elevator
    let q1 : SwQueue := { elevator := some newPolicy }  -- elevator_attach
    if registerOk then (true, q1, [q.elevator, q1.elevator])
    else
      let q2 : SwQueue := { elevator := old }           -- fail_register path
      (false, q2, [q.elevator, q1.elevator, q2.elevator])

/-- Operations of the sorted-count accounting system (claim C6): a SORT
insertion, a policy dispatch moving one pending request to the dispatch
list via `elv_dispatch_sort`, and a back-merge of the two foremost pending
requests via `elv_merge_requests`. -/
inductive ElvOp where
  | opSubmit (rq : Request)
  | opDispatch
  | opMerge
  deriving Repr

/-- One step of the sorted-count accounting system. -/
def elvStep (q : BQueue) : ElvOp → BQueue
  | .opSubmit rq => (elv_insert q rq .sort).1
  | .opDispatch => policyDispatchStep q
  | .opMerge =>
    match q.pending with
    | rq :: next :: _ => elv_merge_requests q rq next
    | _ => q

/-- A fresh queue as set up by `elevator_init`: empty lists, zero
counters, no merge cache, no active ordered sequence. -/
def elvInit : BQueue :=
  { queue_head := [], pending := [], nr_sorted := 0, in_flight := 0,
    last_merge := none, ordseq := 0, ordcolor := false, plugged := false,
    unplug_thresh := 4, count_read := 0, count_write := 0,
    end_sector := 0, boundary_rq := none }

/-- A SCSI device (`struct scsi_device`): busy counter, queue-depth limit,
blocked countdown, and its identity (membership of the host's starvation
list is recorded on the host side). -/
structure ScsiDevice where
  device_busy : Nat
  queue_depth : Nat
  device_blocked : Nat
  sid : Nat
  online : Bool
  deriving Repr, DecidableEq

/-- A SCSI host adapter (`struct Scsi_Host`): busy counter, concurrency
limit (`can_queue`, 0 = unlimited), blocked countdown, self-blocked flag,
recovery state and the starvation list (FIFO of device identities). -/
structure ScsiHost where
  host_busy : Nat
  can_queue : Nat
  host_blocked : Nat
  host_self_blocked : Bool
  in_recovery : Bool
  starved_list : List Nat
  deriving Repr, DecidableEq

/-- `scsi_dev_queue_ready` (src/drivers/scsi/scsi_lib.c): device-level
admission.  Returns (admitted, updated device, whether `blk_plug_device`
was invoked). -/
def scsi_dev_queue_ready (sdev : ScsiDevice) : Bool × ScsiDevice × Bool :=
  if sdev.device_busy ≥ sdev.queue_depth then (false, sdev, false)
  else if sdev.device_busy = 0 && sdev.device_blocked ≠ 0 then
    let d := { sdev with device_blocked := sdev.device_blocked - 1 }
    if d.device_blocked = 0 then (true, d, false)
    else (false, d, true)
  else if sdev.device_blocked ≠ 0 then (false, sdev, false)
  else (true, sdev, false)

/-- The saturation test of `scsi_host_queue_ready`: the host refuses (and
starves the device) when its concurrency limit is reached or it is
blocked or self-blocked. -/
def hostSaturated (shost : ScsiHost) : Bool :=
  (shost.can_queue ≠ 0 && shost.host_busy ≥ shost.can_queue)
    || shost.host_blocked ≠ 0 || shost.host_self_blocked

/-- Tail of `scsi_host_queue_ready` after the blocked-countdown step:
refusal appends the device to the starvation list only when absent
(idempotent append); admission removes it from the list. -/
def scsi_host_queue_ready_tail (shost : ScsiHost) (sid : Nat) :
    Bool × ScsiHost × Bool :=
  if hostSaturated shost then
    let h := if sid ∈ shost.starved_list then shost
             else { shost with starved_list := shost.starved_list ++ [sid] }
    (false, h, false)
  else
    ( true,
      { shost with starved_list := shost.starved_list.erase sid },
      false )

/-- `scsi_host_queue_ready` (src/drivers/scsi/scsi_lib.c): host-level
admission for device `sid`.  Returns (admitted, updated host, whether
`blk_plug_device` was invoked). -/
def scsi_host_queue_ready (shost : ScsiHost) (sid : Nat) :
    Bool × ScsiHost × Bool :=
  if shost.in_recovery then (false, shost, false)
  else if shost.host_busy = 0 && shost.host_blocked ≠ 0 then
    let h := { shost with host_blocked := shost.host_blocked - 1 }
    if h.host_blocked = 0 then scsi_host_queue_ready_tail h sid
    else (false, h, true)
  else scsi_host_queue_ready_tail shost sid

/-- Combined state for the SCSI dispatch loop: the device's block queue,
the device and its host adapter. -/
structure SState where
  bq : BQueue
  sdev : ScsiDevice
  shost : ScsiHost
  deriving Repr, DecidableEq

/-- Result of one iteration of `scsi_request_fn`'s dispatch loop. -/
inductive ScsiIterRes where
  | dispatched   -- command handed to the driver, loop continues
  | stopped      -- loop breaks (no request, device not ready, host refused)
  | killed       -- request killed (device offline), loop continues
  deriving Repr, DecidableEq

/-- One iteration of `scsi_request_fn`'s dispatch loop
(src/drivers/scsi/scsi_lib.c), for an untagged queue whose device is not
`single_lun`: fetch the head request; stop when there is none or the
device gate refuses; kill the request if the device is offline; otherwise
dequeue it, raise `device_busy`, and ask the host gate — refusal requeues
the request at the front (via `blk_requeue_request`, which calls
`elv_requeue_request`), undoes `device_busy`, plugs at zero busy, and
stops; admission raises `host_busy` and dispatches (the driver is assumed
to accept). -/
def scsi_request_fn_iter (s : SState) : SState × ScsiIterRes :=
  match s.bq.queue_head with
  | [] => (s, .stopped)
  | req :: rest =>
    let (devok, sdev1, devplug) := scsi_dev_queue_ready s.sdev
    let s1 : SState := { s with
      sdev := sdev1,
      bq := if devplug then blk_plug_device s.bq else s.bq }
    if !devok then (s1, .stopped)
    else if !sdev1.online then
      -- scsi_kill_request: dequeue and complete with DID_NO_CONNECT
      ({ s1 with bq := { s1.bq with queue_head := rest } }, .killed)
    else
      let bq1 := elv_dequeue_request s1.bq req
      let sdev2 := { sdev1 with device_busy := sdev1.device_busy + 1 }
      let (hostok, shost1, _hostplug) := scsi_host_queue_ready s.shost sdev2.sid
      if hostok then
        ( { bq := bq1, sdev := sdev2,
            shost := { shost1 with host_busy := shost1.host_busy + 1 } },
          .dispatched )
      else
        -- not_ready: blk_requeue_request + device_busy--, plug at zero
        let (bq2, _) := elv_requeue_request bq1 req
        let sdev3 := { sdev2 with device_busy := sdev2.device_busy - 1 }
        let bq3 := if sdev3.device_busy = 0 then blk_plug_device bq2 else bq2
        ( { bq := bq3, sdev := sdev3, shost := shost1 }, .stopped )

/-- Loop condition of `scsi_run_queue`'s starvation sweep
(src/drivers/scsi/scsi_lib.c). -/
def sweepCond (h : ScsiHost) : Bool :=
  !h.starved_list.isEmpty && h.host_blocked = 0 && !h.host_self_blocked
    && !(h.can_queue ≠ 0 && h.host_busy ≥ h.can_queue)

/-- The starvation sweep of `scsi_run_queue`
(src/drivers/scsi/scsi_lib.c): while the host accepts commands and
devices are starved, remove the first starved device from the list and
re-run its dispatch loop (`blk_run_queue`, whose effect on the host state
is the parameter `run`); stop if the device reappeared on the list. -/
def scsi_run_queue_sweep (run : Nat → ScsiHost → ScsiHost) :
    Nat → ScsiHost → ScsiHost
  | 0, h => h
  | n + 1, h =>
    if sweepCond h then
      match h.starved_list with
      | [] => h
      | d :: rest =>
        let h2 := run d { h with starved_list := rest }
        if d ∈ h2.starved_list then h2
        else scsi_run_queue_sweep run n h2
    else h

/-- SCSI sense keys and opcodes used by the completion classifier. -/
def NOT_READY : Nat := 0x02
def ILLEGAL_REQUEST : Nat := 0x05
def UNIT_ATTENTION : Nat := 0x06
def VOLUME_OVERFLOW : Nat := 0x0d
def READ_10 : Nat := 0x28
def WRITE_10 : Nat := 0x2a
def DID_RESET : Nat := 0x08

/-- `host_byte(result)`: bits 16..23 of the SCSI result word. -/
def host_byte (result : Nat) : Nat := result / 2 ^ 16 % 2 ^ 8

/-- Normalized sense data (`struct scsi_sense_hdr`). -/
structure SenseHdr where
  sense_key : Nat
  asc : Nat
  ascq : Nat
  deriving Repr, DecidableEq

/-- The device capabilities touched by the completion classifier. -/
structure SDevCaps where
  removable : Bool
  changed : Bool
  use_10_for_rw : Bool
  deriving Repr, DecidableEq

/-- Classification outcome: `terminate` ends this request only
(`scsi_end_request(cmd, 0, this_count, ...)`), `retry` resubmits it
identically (`scsi_requeue_command`). -/
inductive CompletionAction where
  | terminate
  | retry
  deriving Repr, DecidableEq

/-- The `NOT_READY` in-progress qualifiers retried by the classifier. -/
def notReadyInProgress (ascq : Nat) : Bool :=
  ascq = 0x01 || ascq = 0x04 || ascq = 0x05 || ascq = 0x06
    || ascq = 0x07 || ascq = 0x08 || ascq = 0x09

/-- The sense-driven tail of `scsi_io_completion`
(src/drivers/scsi/scsi_lib.c), reached when the first `scsi_end_request`
could not finish the request (leftover bytes): classify by sense data and
fall through to the `DID_RESET` check and the final failing
`scsi_end_request`.  Returns the action and the updated device
capabilities. -/
def scsi_io_completion_tail (result : Nat) (sense_valid sense_deferred : Bool)
    (s : SenseHdr) (dev : SDevCaps) (opcode : Nat) :
    CompletionAction × SDevCaps :=
  let fallthrough : CompletionAction × SDevCaps :=
    if host_byte result = DID_RESET then (.retry, dev) else (.terminate, dev)
  if sense_valid && !sense_deferred then
    if s.sense_key = UNIT_ATTENTION then
      if dev.removable then (.terminate, { dev with changed := true })
      else (.retry, dev)
    else if s.sense_key = ILLEGAL_REQUEST then
      if dev.use_10_for_rw && s.asc = 0x20 && s.ascq = 0x00
          && (opcode = READ_10 || opcode = WRITE_10) then
        (.retry, { dev with use_10_for_rw := false })
      else (.terminate, dev)
    else if s.sense_key = NOT_READY then
      if s.asc = 0x04 && notReadyInProgress s.ascq then (.retry, dev)
      else (.terminate, dev)
    else if s.sense_key = VOLUME_OVERFLOW then (.terminate, dev)
    else fallthrough
  else fallthrough

/-- A concrete admitted device used by witnesses. -/
def sdevW : ScsiDevice :=
  { device_busy := 1, queue_depth := 4, device_blocked := 0, sid := 0,
    online := true }

/-- A concrete admitted host used by witnesses. -/
def shostW : ScsiHost :=
  { host_busy := 1, can_queue := 2, host_blocked := 0,
    host_self_blocked := false, in_recovery := false, starved_list := [] }

/-- Flag word of a plain, not-yet-started filesystem request. -/
def flagsW : RqFlags :=
  { started := false, softbarrier := false, hardbarrier := false,
    sorted := false, nomerge := false, fs := true, elvpriv := true,
    quiet := false, dontprep := false, orderedColor := false }

/-- A concrete pending request covering sectors [100, 110). -/
def rqW : Request :=
  { sector := 100, nr_sectors := 10, dir := false, rq_disk := 1,
    waiting := false, special := false, flags := flagsW, seq := 0, rid := 0 }

/-- A concrete bio covering sectors [110, 120) on the same disk. -/
def bioW : Bio :=
  { bi_sector := 110, bi_sectors := 10, dir := false, bd_disk := 1 }

/-- `rqW` after dispatch selection has marked it started. -/
def rqStartedW : Request :=
  { rqW with flags := { flagsW with started := true } }

/-- A concrete barrier request whose required phase (3) is past drain. -/
def rqBarW : Request :=
  { sector := 200, nr_sectors := 8, dir := true, rq_disk := 1,
    waiting := false, special := false,
    flags := { flagsW with softbarrier := true, hardbarrier := true },
    seq := 3, rid := 5 }

/-- A concrete queue in the drain phase with one in-flight request and the
barrier request pending at the dispatch head. -/
def qC5W : BQueue :=
  { elvInit with queue_head := [rqBarW], ordseq := 1, in_flight := 1 }

/-- A concrete queue with `rqW` at the dispatch head. -/
def qC10W : BQueue :=
  { elvInit with queue_head := [rqW] }

/-- A concrete queue with two requests in flight and no active ordered
sequence. -/
def qC7W : BQueue :=
  { elvInit with in_flight := 2 }

/-- A concrete saturated host (`host_busy = can_queue = 2`). -/
def shostSatW : ScsiHost :=
  { host_busy := 2, can_queue := 2, host_blocked := 0,
    host_self_blocked := false, in_recovery := false, starved_list := [] }

/-- A concrete dispatch-loop state whose host gate refuses. -/
def sC3W : SState :=
  { bq := { elvInit with queue_head := [rqW] }, sdev := sdevW,
    shost := shostSatW }

/-! ## Theorems -/

/-- Claim C2: the device admission gate admits a request only if
`device_busy < queue_depth` and the device's blocked countdown is zero
(after the countdown step); the host admission gate admits only if the
host is not in recovery, not blocked and not self-blocked, and either
`can_queue = 0` (unlimited) or `host_busy < can_queue`. -/
theorem C2_admission_gates :
    (∀ sdev : ScsiDevice, (scsi_dev_queue_ready sdev).1 = true →
      sdev.device_busy < sdev.queue_depth ∧
      (scsi_dev_queue_ready sdev).2.1.device_blocked = 0) ∧
    (∀ (shost : ScsiHost) (sid : Nat),
      (scsi_host_queue_ready shost sid).1 = true →
      shost.in_recovery = false ∧ shost.host_self_blocked = false ∧
      (scsi_host_queue_ready shost sid).2.1.host_blocked = 0 ∧
      (shost.can_queue = 0 ∨ shost.host_busy < shost.can_queue)) := by
  constructor
  · intro sdev h
    simp only [scsi_dev_queue_ready] at h ⊢
    split_ifs at h ⊢ with h1 h2 h3 h4 <;> simp_all
  · intro shost sid h
    simp only [scsi_host_queue_ready, scsi_host_queue_ready_tail,
      hostSaturated] at h ⊢
    split_ifs at h ⊢ <;> simp_all <;> omega

/-- Witness for C2 at a concrete device and host that are admitted. -/
theorem C2_admission_gates_witness :
    (sdevW.device_busy < sdevW.queue_depth ∧
      (scsi_dev_queue_ready sdevW).2.1.device_blocked = 0) ∧
    (shostW.in_recovery = false ∧ shostW.host_self_blocked = false ∧
      (scsi_host_queue_ready shostW 0).2.1.host_blocked = 0 ∧
      (shostW.can_queue = 0 ∨ shostW.host_busy < shostW.can_queue)) :=
  ⟨C2_admission_gates.1 sdevW (by decide),
   C2_admission_gates.2 shostW 0 (by decide)⟩

/-- Counterexample to claim C4 as stated: an illegal-request sense with
asc 0x20 but ascq 0x01 on a READ(10) while `use_10_for_rw` is set is
terminated by the code, not retried, and the capability is not cleared —
the code additionally requires ascq 0x00. -/
theorem C4_counterexample :
    (scsi_io_completion_tail 0x02 true false
        { sense_key := ILLEGAL_REQUEST, asc := 0x20, ascq := 0x01 }
        { removable := false, changed := false, use_10_for_rw := true }
        READ_10).1 ≠ CompletionAction.retry ∧
    (scsi_io_completion_tail 0x02 true false
        { sense_key := ILLEGAL_REQUEST, asc := 0x20, ascq := 0x01 }
        { removable := false, changed := false, use_10_for_rw := true }
        READ_10).2.use_10_for_rw = true := by decide

/-- Claim C4 (amended: the one-time capability downgrade additionally
requires ascq 0x00): on completion with valid, non-deferred sense and
leftover bytes — a unit-attention on a removable device marks the device
changed and terminates only that request, on a non-removable device the
command is retried identically; an illegal-request sense with asc 0x20 and
ascq 0x00 on READ(10)/WRITE(10) while `use_10_for_rw` is set clears that
capability and retries, otherwise the request is terminated; not-ready
with an in-progress qualifier retries, otherwise terminates; a
volume-overflow completion terminates. -/
theorem C4_completion_classifier (result : Nat) (s : SenseHdr)
    (dev : SDevCaps) (op : Nat) :
    (s.sense_key = UNIT_ATTENTION → dev.removable = true →
      scsi_io_completion_tail result true false s dev op
        = (.terminate, { dev with changed := true })) ∧
    (s.sense_key = UNIT_ATTENTION → dev.removable = false →
      scsi_io_completion_tail result true false s dev op = (.retry, dev)) ∧
    (s.sense_key = ILLEGAL_REQUEST →
      (dev.use_10_for_rw && s.asc = 0x20 && s.ascq = 0x00
        && (op = READ_10 || op = WRITE_10)) = true →
      scsi_io_completion_tail result true false s dev op
        = (.retry, { dev with use_10_for_rw := false })) ∧
    (s.sense_key = ILLEGAL_REQUEST →
      (dev.use_10_for_rw && s.asc = 0x20 && s.ascq = 0x00
        && (op = READ_10 || op = WRITE_10)) = false →
      scsi_io_completion_tail result true false s dev op
        = (.terminate, dev)) ∧
    (s.sense_key = NOT_READY →
      (s.asc = 0x04 && notReadyInProgress s.ascq) = true →
      scsi_io_completion_tail result true false s dev op = (.retry, dev)) ∧
    (s.sense_key = NOT_READY →
      (s.asc = 0x04 && notReadyInProgress s.ascq) = false →
      scsi_io_completion_tail result true false s dev op
        = (.terminate, dev)) ∧
    (s.sense_key = VOLUME_OVERFLOW →
      scsi_io_completion_tail result true false s dev op
        = (.terminate, dev)) := by
  refine ⟨?_, ?_, ?_, ?_, ?_, ?_, ?_⟩ <;>
    intro hkey <;>
    first
      | (intro hcond
         simp [scsi_io_completion_tail, hkey, hcond, UNIT_ATTENTION,
           ILLEGAL_REQUEST, NOT_READY, VOLUME_OVERFLOW])
      | simp [scsi_io_completion_tail, hkey, UNIT_ATTENTION,
          ILLEGAL_REQUEST, NOT_READY, VOLUME_OVERFLOW]

/-- Witness for C4 applying the unit-attention/removable branch and the
capability-downgrade branch at concrete inputs. -/
theorem C4_completion_classifier_witness :
    scsi_io_completion_tail 0x02 true false
        { sense_key := UNIT_ATTENTION, asc := 0x29, ascq := 0x00 }
        { removable := true, changed := false, use_10_for_rw := true }
        READ_10
      = (.terminate,
         { removable := true, changed := true, use_10_for_rw := true }) ∧
    scsi_io_completion_tail 0x02 true false
        { sense_key := ILLEGAL_REQUEST, asc := 0x20, ascq := 0x00 }
        { removable := false, changed := false, use_10_for_rw := true }
        READ_10
      = (.retry,
         { removable := false, changed := false, use_10_for_rw := false }) :=
  ⟨(C4_completion_classifier 0x02
      { sense_key := UNIT_ATTENTION, asc := 0x29, ascq := 0x00 }
      { removable := true, changed := false, use_10_for_rw := true }
      READ_10).1 rfl rfl,
   ((C4_completion_classifier 0x02
      { sense_key := ILLEGAL_REQUEST, asc := 0x20, ascq := 0x00 }
      { removable := false, changed := false, use_10_for_rw := true }
      READ_10).2.2.1 rfl (by decide))⟩

/-- Claim C8: a policy switch allocates and initializes the new policy
before detaching the old one; on any failure — allocation, policy
initialization, or attribute registration — the queue retains or is
restored to the previous policy and the switch reports failure; on
success the new policy is active; and at no point during or after the
switch is the queue without an active policy. -/
theorem C8_elevator_switch (q : SwQueue) (newP old : Nat)
    (allocOk initOk registerOk : Bool) (h : q.elevator = some old) :
    ((elevator_switch q newP allocOk initOk registerOk).1 = false →
      (elevator_switch q newP allocOk initOk registerOk).2.1.elevator
        = some old) ∧
    ((elevator_switch q newP allocOk initOk registerOk).1 = true →
      (elevator_switch q newP allocOk initOk registerOk).2.1.elevator
        = some newP) ∧
    (∀ e ∈ (elevator_switch q newP allocOk initOk registerOk).2.2,
      e ≠ none) := by
  cases allocOk <;> cases initOk <;> cases registerOk <;>
    simp_all [elevator_switch]

/-- Witness for C8 at a concrete queue and a switch whose attribute
registration fails: the old policy is restored and every intermediate
state has an active policy. -/
theorem C8_elevator_switch_witness :
    ((elevator_switch ⟨some 7⟩ 9 true true false).1 = false →
      (elevator_switch ⟨some 7⟩ 9 true true false).2.1.elevator = some 7) ∧
    ((elevator_switch ⟨some 7⟩ 9 true true false).1 = true →
      (elevator_switch ⟨some 7⟩ 9 true true false).2.1.elevator = some 9) ∧
    (∀ e ∈ (elevator_switch ⟨some 7⟩ 9 true true false).2.2, e ≠ none) :=
  C8_elevator_switch ⟨some 7⟩ 9 7 true true false rfl

/-- Claim C9: after a SORT insertion into a plugged queue, if the number
of allocated requests minus the in-flight count exceeds the congestion
threshold, the queue is unplugged immediately; a REQUEUE insertion never
triggers this immediate unplug. -/
theorem C9_congestion_unplug (q : BQueue) (rq : Request)
    (hplug : q.plugged = true)
    (hthr : (q.count_read : Int) + (q.count_write : Int) - (q.in_flight : Int)
      > (q.unplug_thresh : Int)) :
    (elv_insert q rq .sort).2.unplugged = true ∧
    ∀ (q' : BQueue) (rq' : Request),
      (elv_insert q' rq' .requeue).2.unplugged = false := by
  constructor
  · simp only [elv_insert, elvInsertUnplugCheck]
    simp only [hplug]
    have : ((q.count_read : Int) + (q.count_write : Int) - (q.in_flight : Int)
        ≥ (q.unplug_thresh : Int)) := le_of_lt hthr
    simp [this]
  · intro q' rq'
    simp [elv_insert, elvInsertUnplugCheck]

/-- Witness for C9 at a concrete plugged queue with five allocated
requests, none in flight, and threshold four. -/
theorem C9_congestion_unplug_witness :
    (elv_insert
      { elvInit with plugged := true, count_read := 5, count_write := 0 }
      { sector := 0, nr_sectors := 1, dir := false, rq_disk := 0,
        waiting := false, special := false,
        flags := ⟨false, false, false, false, false, true, true, false, false, false⟩,
        seq := 0, rid := 0 } .sort).2.unplugged = true ∧
    ∀ (q' : BQueue) (rq' : Request),
      (elv_insert q' rq' .requeue).2.unplugged = false :=
  C9_congestion_unplug
    { elvInit with plugged := true, count_read := 5, count_write := 0 }
    { sector := 0, nr_sectors := 1, dir := false, rq_disk := 0,
      waiting := false, special := false,
      flags := ⟨false, false, false, false, false, true, true, false, false, false⟩,
      seq := 0, rid := 0 }
    rfl (by decide)

/-- Wrapping `sector_t` subtraction hits `s` exactly when `s + b = a`,
provided nothing overflows 64 bits. -/
theorem sub64_eq_iff (a b s : Nat) (ha : a < M64) (hs : s < M64)
    (hsb : s + b < M64) : sub64 a b = s ↔ s + b = a := by
  have hm : M64 = 18446744073709551616 := by norm_num [M64]
  rw [hm] at ha hs hsb
  unfold sub64
  rw [hm]
  omega

/-- `elv_rq_merge_ok` succeeds exactly for a non-barrier, not-started,
mergeable filesystem request with matching direction and disk, no waiter
and no attached device command. -/
theorem elv_rq_merge_ok_iff (rq : Request) (bio : Bio) :
    elv_rq_merge_ok rq bio = true ↔
      rq.flags.nomerge = false ∧ rq.flags.started = false ∧
      rq.flags.softbarrier = false ∧ rq.flags.hardbarrier = false ∧
      rq.flags.fs = true ∧ bio.dir = rq.dir ∧ rq.rq_disk = bio.bd_disk ∧
      rq.waiting = false ∧ rq.special = false := by
  constructor
  · intro h
    unfold elv_rq_merge_ok at h
    split_ifs at h with h1 h2 h3
    simp only [rq_mergeable, Bool.not_eq_true, Bool.not_eq_false,
      Bool.and_eq_true, Bool.or_eq_false_iff, Bool.not_eq_eq_eq_not,
      Bool.not_true] at h1
    simp only [bne, Bool.not_eq_true, Bool.not_eq_false,
      beq_iff_eq] at h2
    simp only [Bool.and_eq_true, beq_iff_eq, Bool.not_eq_true] at h3
    refine ⟨?_, ?_, ?_, ?_, ?_, ?_, ?_, ?_, ?_⟩ <;> simp_all
  · intro h
    obtain ⟨h1, h2, h3, h4, h5, h6, h7, h8, h9⟩ := h
    unfold elv_rq_merge_ok rq_mergeable
    simp [h1, h2, h3, h4, h5, h6, h7, h8, h9]

/-- Claim C1: the merge lookup reports a merge only if the bio and the
request have the same direction and disk and the request is not started,
has no device command attached, and is not barrier-flagged; for an
eligible pair it reports Back exactly when the request's end sector equals
the bio's start sector and Front exactly when the bio's end sector equals
the request's start sector (within 64-bit sector bounds); a barrier
request is never a merge target; and a barrier submission's SORT insertion
is converted to BACK by `__elv_add_request`. -/
theorem C1_merge_rule (rq : Request) (bio : Bio) :
    (elv_try_merge rq bio ≠ .noMerge →
      rq.dir = bio.dir ∧ rq.rq_disk = bio.bd_disk ∧
      rq.flags.started = false ∧ rq.special = false ∧
      rq.flags.softbarrier = false ∧ rq.flags.hardbarrier = false) ∧
    (rq.sector < M64 → bio.bi_sector < M64 →
      rq.sector + rq.nr_sectors < M64 →
      bio.bi_sector + bio.bi_sectors < M64 → 0 < bio.bi_sectors →
      elv_rq_merge_ok rq bio = true →
      ((elv_try_merge rq bio = .backMerge ↔
          rq.sector + rq.nr_sectors = bio.bi_sector) ∧
        (elv_try_merge rq bio = .frontMerge ↔
          bio.bi_sector + bio.bi_sectors = rq.sector))) ∧
    ((rq.flags.softbarrier || rq.flags.hardbarrier) = true →
      elv_try_merge rq bio = .noMerge) ∧
    (∀ (q : BQueue) (plug : Bool),
      (rq.flags.softbarrier || rq.flags.hardbarrier) = true →
      __elv_add_request q rq .sort plug = __elv_add_request q rq .back plug) := by
  refine ⟨?_, ?_, ?_, ?_⟩
  · intro hne
    by_cases hok : elv_rq_merge_ok rq bio = true
    · obtain ⟨h1, h2, h3, h4, h5, h6, h7, h8, h9⟩ :=
        (elv_rq_merge_ok_iff rq bio).1 hok
      exact ⟨h6.symm, h7, h2, h9, h3, h4⟩
    · exfalso
      apply hne
      simp [elv_try_merge, hok]
  · intro h1 h2 h3 h4 h5 hok
    have hback : (((rq.sector + rq.nr_sectors) % M64 == bio.bi_sector % M64)
        = true) ↔ rq.sector + rq.nr_sectors = bio.bi_sector := by
      rw [beq_iff_eq, Nat.mod_eq_of_lt h3, Nat.mod_eq_of_lt h2]
    have hfront : ((sub64 rq.sector bio.bi_sectors == bio.bi_sector % M64)
        = true) ↔ bio.bi_sector + bio.bi_sectors = rq.sector := by
      rw [beq_iff_eq, Nat.mod_eq_of_lt h2, sub64_eq_iff _ _ _ h1 h2 h4]
    by_cases hc1 : ((rq.sector + rq.nr_sectors) % M64 == bio.bi_sector % M64)
        = true
    · have he1 := hback.1 hc1
      constructor
      · simp [elv_try_merge, hok, hc1, he1]
      · constructor
        · intro hcontra
          simp [elv_try_merge, hok, hc1] at hcontra
        · intro he2
          exfalso
          omega
    · constructor
      · constructor
        · intro hcontra
          by_cases hc2 : ((sub64 rq.sector bio.bi_sectors
              == bio.bi_sector % M64) = true) <;>
            simp [elv_try_merge, hok, hc1, hc2] at hcontra
        · intro he1
          exact absurd (hback.2 he1) hc1
      · by_cases hc2 : ((sub64 rq.sector bio.bi_sectors
            == bio.bi_sector % M64) = true)
        · simp [elv_try_merge, hok, hc1, hc2, hfront.1 hc2]
        · constructor
          · intro hcontra
            simp [elv_try_merge, hok, hc1, hc2] at hcontra
          · intro he2
            exact absurd (hfront.2 he2) hc2
  · intro hb
    have hmerge : rq_mergeable rq = false := by
      rcases Bool.or_eq_true_iff.mp hb with h | h <;>
        simp [rq_mergeable, h]
    simp [elv_try_merge, elv_rq_merge_ok, hmerge]
  · intro q plug hb
    cases hcol : q.ordcolor <;> simp [__elv_add_request, hcol, hb]

/-- Witness for C1 at the concrete back-adjacent pair `rqW`, `bioW`. -/
theorem C1_merge_rule_witness :
    (elv_try_merge rqW bioW = .backMerge ↔
      rqW.sector + rqW.nr_sectors = bioW.bi_sector) ∧
    (elv_try_merge rqW bioW = .frontMerge ↔
      bioW.bi_sector + bioW.bi_sectors = rqW.sector) :=
  (C1_merge_rule rqW bioW).2.1 (by decide) (by decide) (by decide)
    (by decide) (by decide) (by decide)

/-- Claim C5: on a completion while an ordered sequence is active, the
queue advances past the drain phase and re-runs the dispatch function
exactly when the (post-decrement) in-flight count is zero, the current
phase is drain, and the head dispatch-list request's required phase
exceeds drain; otherwise the phase is left unchanged. -/
theorem C5_barrier_drain_advance (q : BQueue) (rq first : Request)
    (rest : List Request) (hhead : q.queue_head = first :: rest)
    (hactive : q.ordseq ≠ 0) :
    (((if blk_account_rq rq then q.in_flight - 1 else q.in_flight) = 0
        ∧ q.ordseq = QUEUE_ORDSEQ_DRAIN
        ∧ first.seq > QUEUE_ORDSEQ_DRAIN) ↔
      ((elv_completed_request q rq).1.ordseq = q.ordseq + 1
        ∧ (elv_completed_request q rq).2 = true)) ∧
    ((elv_completed_request q rq).2 = false →
      (elv_completed_request q rq).1.ordseq = q.ordseq) := by
  cases hacc : blk_account_rq rq <;>
    simp only [elv_completed_request, hacc] <;>
    simp [hhead, hactive] <;>
    split_ifs <;> simp_all

/-- Witness for C5: on `qC5W` (drain phase, one in-flight) the completion
of a started filesystem request advances the phase and re-runs the
dispatch function. -/
theorem C5_barrier_drain_advance_witness :
    (((if blk_account_rq rqStartedW then qC5W.in_flight - 1
        else qC5W.in_flight) = 0
        ∧ qC5W.ordseq = QUEUE_ORDSEQ_DRAIN
        ∧ rqBarW.seq > QUEUE_ORDSEQ_DRAIN) ↔
      ((elv_completed_request qC5W rqStartedW).1.ordseq = qC5W.ordseq + 1
        ∧ (elv_completed_request qC5W rqStartedW).2 = true)) ∧
    ((elv_completed_request qC5W rqStartedW).2 = false →
      (elv_completed_request qC5W rqStartedW).1.ordseq = qC5W.ordseq) :=
  C5_barrier_drain_advance qC5W rqStartedW rqBarW [] rfl (by decide)

/-- Membership of the REQUEUE insertion: the result holds exactly the
inserted request and the old entries. -/
theorem mem_requeueInsert (a b : Request) (l : List Request) :
    b ∈ requeueInsert a l ↔ b = a ∨ b ∈ l := by
  induction l with
  | nil => simp [requeueInsert]
  | cons p rest ih =>
    by_cases h : a.seq ≤ p.seq
    · simp [requeueInsert, h]
    · simp [requeueInsert, h, ih]
      tauto

/-- The REQUEUE insertion places the request before the first entry whose
required phase is greater than or equal to its own. -/
theorem requeueInsert_eq_take_drop (a : Request) (l : List Request) :
    requeueInsert a l
      = l.takeWhile (fun p => decide (p.seq < a.seq))
        ++ a :: l.dropWhile (fun p => decide (p.seq < a.seq)) := by
  induction l with
  | nil => simp [requeueInsert]
  | cons p rest ih =>
    by_cases h : a.seq ≤ p.seq
    · have : (decide (p.seq < a.seq)) = false := by simp; omega
      simp [requeueInsert, h, List.takeWhile_cons, List.dropWhile_cons, this]
    · have : (decide (p.seq < a.seq)) = true := by simp; omega
      simp [requeueInsert, h, List.takeWhile_cons, List.dropWhile_cons, this, ih]

/-- The REQUEUE insertion keeps the dispatch list sorted by required
phase. -/
theorem requeueInsert_sorted (a : Request) (l : List Request)
    (h : List.Pairwise (fun x y => x.seq ≤ y.seq) l) :
    List.Pairwise (fun x y => x.seq ≤ y.seq) (requeueInsert a l) := by
  induction l with
  | nil => simp [requeueInsert]
  | cons p rest ih =>
    rcases List.pairwise_cons.1 h with ⟨hp, hrest⟩
    by_cases hle : a.seq ≤ p.seq
    · rw [requeueInsert, if_pos hle]
      refine List.pairwise_cons.2 ⟨?_, h⟩
      intro b hb
      rcases List.mem_cons.1 hb with rfl | hb2
      · exact hle
      · exact le_trans hle (hp b hb2)
    · rw [requeueInsert, if_neg hle]
      refine List.pairwise_cons.2 ⟨?_, ih hrest⟩
      intro b hb
      rcases (mem_requeueInsert a b rest).1 hb with rfl | hb2
      · omega
      · exact hp b hb2

/-- Claim C7: requeuing a previously dispatched (accounted) request clears
its started flag, decrements the in-flight count, inserts it at the front
of the dispatch list when no ordered sequence is active and otherwise
before the first entry of required phase `≥` its own — preserving
ascending required-phase order — and never forces an immediate unplug. -/
theorem C7_requeue_request (q : BQueue) (rq : Request)
    (hacct : blk_account_rq rq = true) :
    ((elv_requeue_request q rq).1.in_flight = q.in_flight - 1) ∧
    ((requeuedOf rq).flags.started = false) ∧
    ((elv_requeue_request q rq).2.unplugged = false) ∧
    (q.ordseq = 0 →
      (elv_requeue_request q rq).1.queue_head
        = requeuedOf rq :: q.queue_head) ∧
    (q.ordseq ≠ 0 →
      (elv_requeue_request q rq).1.queue_head
        = requeueInsert (requeuedOf rq) q.queue_head) ∧
    (∀ (a : Request) (l : List Request),
      requeueInsert a l
        = l.takeWhile (fun p => decide (p.seq < a.seq))
          ++ a :: l.dropWhile (fun p => decide (p.seq < a.seq))) ∧
    (∀ (a : Request) (l : List Request),
      List.Pairwise (fun x y => x.seq ≤ y.seq) l →
      List.Pairwise (fun x y => x.seq ≤ y.seq) (requeueInsert a l)) := by
  refine ⟨?_, ?_, ?_, ?_, ?_, requeueInsert_eq_take_drop, requeueInsert_sorted⟩
  · by_cases h0 : q.ordseq = 0 <;>
      simp [elv_requeue_request, hacct, elv_insert, elvInsertUnplugCheck, h0]
  · simp [requeuedOf, setSoftBarrier]
  · by_cases h0 : q.ordseq = 0 <;>
      simp [elv_requeue_request, hacct, elv_insert, elvInsertUnplugCheck, h0]
  · intro h0
    simp [elv_requeue_request, hacct, elv_insert, elvInsertUnplugCheck, h0,
      requeuedOf, setSoftBarrier]
  · intro h0
    simp [elv_requeue_request, hacct, elv_insert, elvInsertUnplugCheck, h0,
      requeuedOf, setSoftBarrier]

/-- Witness for C7 at the concrete queue `qC7W` (two in flight, no
ordered sequence) and the started request `rqStartedW`. -/
theorem C7_requeue_request_witness :
    ((elv_requeue_request qC7W rqStartedW).1.in_flight
      = qC7W.in_flight - 1) ∧
    ((requeuedOf rqStartedW).flags.started = false) ∧
    ((elv_requeue_request qC7W rqStartedW).2.unplugged = false) ∧
    (qC7W.ordseq = 0 →
      (elv_requeue_request qC7W rqStartedW).1.queue_head
        = requeuedOf rqStartedW :: qC7W.queue_head) ∧
    (qC7W.ordseq ≠ 0 →
      (elv_requeue_request qC7W rqStartedW).1.queue_head
        = requeueInsert (requeuedOf rqStartedW) qC7W.queue_head) ∧
    (∀ (a : Request) (l : List Request),
      requeueInsert a l
        = l.takeWhile (fun p => decide (p.seq < a.seq))
          ++ a :: l.dropWhile (fun p => decide (p.seq < a.seq))) ∧
    (∀ (a : Request) (l : List Request),
      List.Pairwise (fun x y => x.seq ≤ y.seq) l →
      List.Pairwise (fun x y => x.seq ≤ y.seq) (requeueInsert a l)) :=
  C7_requeue_request qC7W rqStartedW (by decide)

/-- One step of the accounting system preserves
`nr_sorted = pending.length`. -/
theorem elvStep_preserves_sorted_count (q : BQueue) (op : ElvOp)
    (h : q.nr_sorted = q.pending.length) :
    (elvStep q op).nr_sorted = (elvStep q op).pending.length := by
  cases op with
  | opSubmit rq =>
    simp [elvStep, elv_insert, elvInsertUnplugCheck]
    split_ifs <;> simp [h]
  | opDispatch =>
    cases hp : q.pending with
    | nil => simpa [elvStep, policyDispatchStep, hp] using h
    | cons rq rest =>
      simp [elvStep, policyDispatchStep, hp, elv_dispatch_sort]
      rw [hp] at h
      simp at h
      omega
  | opMerge =>
    cases hp : q.pending with
    | nil => simpa [elvStep, hp] using h
    | cons rq rest =>
      cases hr : rest with
      | nil => simpa [elvStep, hp, hr] using h
      | cons next rest2 =>
        have hmem : next ∈ q.pending := by
          rw [hp, hr]; exact List.mem_cons_of_mem _ (List.mem_cons_self _ _)
        simp [elvStep, hp, hr, elv_merge_requests]
        rw [h, hp, hr]
        simp

/-- The invariant holds of every queue reachable from a fresh queue. -/
theorem elvStep_foldl_invariant (ops : List ElvOp) (q : BQueue)
    (h : q.nr_sorted = q.pending.length) :
    (ops.foldl elvStep q).nr_sorted = (ops.foldl elvStep q).pending.length := by
  induction ops generalizing q with
  | nil => simpa using h
  | cons op rest ih =>
    exact ih (elvStep q op) (elvStep_preserves_sorted_count q op h)

/-- Claim C6: across every sequence of SORT insertions, policy dispatches
(`elv_dispatch_sort`) and merges (`elv_merge_requests`) starting from a
fresh queue, `nr_sorted` equals the number of requests in the scheduler
policy's pending set — each SORT insertion increments it once and each
departure (dispatch or merge) decrements it once — so it returns to zero
whenever the pending set is empty. -/
theorem C6_sorted_count_accounting (ops : List ElvOp) :
    (ops.foldl elvStep elvInit).nr_sorted
      = (ops.foldl elvStep elvInit).pending.length ∧
    ((ops.foldl elvStep elvInit).pending = [] →
      (ops.foldl elvStep elvInit).nr_sorted = 0) := by
  have h := elvStep_foldl_invariant ops elvInit rfl
  refine ⟨h, fun hp => ?_⟩
  rw [h, hp]
  rfl

/-- The request handed back by the started-marking step always carries
`REQ_STARTED`. -/
theorem elvMarkStarted_snd_started (q : BQueue) (rq : Request) :
    ((elvMarkStarted q rq).2).flags.started = true := by
  unfold elvMarkStarted
  split_ifs with h
  · exact h
  · simp

/-- Claim C10: every request returned by dispatch selection
(`elv_next_request`) has its started flag set; any request with the
started flag set is rejected by merge eligibility; and a requeued request
is still rejected by merge eligibility (its soft-barrier flag, set on
requeue, blocks merging even though requeue clears the started flag). -/
theorem C10_started_never_merge_target :
    (∀ (gate : Request → Bool) (prep : Option (Request → PrepRet))
      (fuel : Nat) (q : BQueue) (rq : Request),
      (elv_next_request gate prep fuel q).1 = some rq →
      rq.flags.started = true) ∧
    (∀ (rq : Request) (bio : Bio), rq.flags.started = true →
      elv_rq_merge_ok rq bio = false) ∧
    (∀ (rq : Request) (bio : Bio),
      elv_rq_merge_ok (requeuedOf rq) bio = false) := by
  refine ⟨?_, ?_, ?_⟩
  · intro gate prep fuel
    induction fuel with
    | zero =>
      intro q rq h
      simp [elv_next_request] at h
    | succ n ih =>
      intro q rq h
      rw [elv_next_request] at h
      cases h__ : __elv_next_request gate (n + 1) q with
      | none => rw [h__] at h; simp at h
      | some pr =>
        obtain ⟨rq1, q1⟩ := pr
        rw [h__] at h
        simp only at h
        cases hm : elvMarkStarted q1 rq1 with
        | mk q2 rq2 =>
          rw [hm] at h
          simp only at h
          have hst : rq2.flags.started = true := by
            have := elvMarkStarted_snd_started q1 rq1
            rw [hm] at this
            exact this
          by_cases hdp : rq2.flags.dontprep = true
          · simp [hdp] at h
            rw [← h]
            exact hst
          · simp only [hdp] at h
            cases prep with
            | none =>
              simp at h
              rw [← h]
              exact hst
            | some p =>
              simp only [Bool.false_eq_true, if_false] at h
              cases hp : p rq2 with
              | ok =>
                rw [hp] at h
                simp at h
                rw [← h]
                exact hst
              | defer =>
                rw [hp] at h
                simp at h
              | kill =>
                rw [hp] at h
                exact ih _ _ h
  · intro rq bio h
    simp [elv_rq_merge_ok, rq_mergeable, h]
  · intro rq bio
    simp [elv_rq_merge_ok, rq_mergeable, requeuedOf, setSoftBarrier]

/-- Witness for C10: on `qC10W` the dispatch selection returns the
started copy of `rqW`, whose started flag is set. -/
theorem C10_started_never_merge_target_witness :
    rqStartedW.flags.started = true ∧
    elv_rq_merge_ok rqStartedW bioW = false ∧
    elv_rq_merge_ok (requeuedOf rqStartedW) bioW = false :=
  ⟨C10_started_never_merge_target.1 (fun _ => true) none 1 qC10W rqStartedW
      (by decide),
   C10_started_never_merge_target.2.1 rqStartedW bioW (by decide),
   C10_started_never_merge_target.2.2 rqStartedW bioW⟩

/-- The device gate never changes the device's identity, busy count or
online state, and a successful gate never plugs the queue. -/
theorem scsi_dev_queue_ready_fields (d : ScsiDevice) :
    (scsi_dev_queue_ready d).2.1.online = d.online ∧
    (scsi_dev_queue_ready d).2.1.sid = d.sid ∧
    (scsi_dev_queue_ready d).2.1.device_busy = d.device_busy ∧
    ((scsi_dev_queue_ready d).1 = true →
      (scsi_dev_queue_ready d).2.2 = false) := by
  simp only [scsi_dev_queue_ready]
  split_ifs <;> simp

/-- A host refusal either leaves the starvation list unchanged or appends
the device exactly once, and only when it was absent. -/
theorem scsi_host_refused_starved (h : ScsiHost) (sid : Nat)
    (href : (scsi_host_queue_ready h sid).1 = false) :
    (scsi_host_queue_ready h sid).2.1.starved_list = h.starved_list ∨
      ((scsi_host_queue_ready h sid).2.1.starved_list
          = h.starved_list ++ [sid] ∧ sid ∉ h.starved_list) := by
  simp only [scsi_host_queue_ready, scsi_host_queue_ready_tail] at href ⊢
  split_ifs at href ⊢ <;> simp_all

/-- A device that passes host admission is absent from the starvation
list afterwards (the list holds each device at most once, as in the C
code where each device owns a single list node). -/
theorem scsi_host_admitted_not_starved (h : ScsiHost) (sid : Nat)
    (hnd : h.starved_list.Nodup)
    (hok : (scsi_host_queue_ready h sid).1 = true) :
    sid ∉ (scsi_host_queue_ready h sid).2.1.starved_list := by
  simp only [scsi_host_queue_ready, scsi_host_queue_ready_tail] at hok ⊢
  split_ifs at hok ⊢ <;> simp_all <;>
    exact fun hmem => ((List.Nodup.mem_erase_iff hnd).1 hmem).1 rfl

/-- Claim C3: when host admission is refused for a device with a ready
request, the device is appended to the starvation list only if absent
(idempotent append), the request is requeued at the front of the dispatch
list, `device_busy` (and the in-flight count) return to their pre-attempt
values, and the loop stops; a device that passes host admission is
removed from the starvation list; and the completion sweep
(`scsi_run_queue`) removes the first starved device from the list and
re-runs its dispatch loop. -/
theorem C3_host_starvation (s : SState) (req : Request)
    (rest : List Request)
    (hhead : s.bq.queue_head = req :: rest)
    (hdev : (scsi_dev_queue_ready s.sdev).1 = true)
    (honline : s.sdev.online = true)
    (hrefuse : (scsi_host_queue_ready s.shost s.sdev.sid).1 = false)
    (hord : s.bq.ordseq = 0) :
    ((scsi_request_fn_iter s).2 = .stopped) ∧
    ((scsi_request_fn_iter s).1.bq.queue_head = requeuedOf req :: rest) ∧
    ((scsi_request_fn_iter s).1.sdev.device_busy = s.sdev.device_busy) ∧
    ((scsi_request_fn_iter s).1.bq.in_flight = s.bq.in_flight) ∧
    ((scsi_request_fn_iter s).1.shost.starved_list = s.shost.starved_list ∨
      ((scsi_request_fn_iter s).1.shost.starved_list
          = s.shost.starved_list ++ [s.sdev.sid] ∧
        s.sdev.sid ∉ s.shost.starved_list)) ∧
    (∀ (h : ScsiHost) (sid : Nat), h.starved_list.Nodup →
      (scsi_host_queue_ready h sid).1 = true →
      sid ∉ (scsi_host_queue_ready h sid).2.1.starved_list) ∧
    (∀ (run : Nat → ScsiHost → ScsiHost) (n : Nat) (h : ScsiHost)
      (d : Nat) (tl : List Nat),
      sweepCond h = true → h.starved_list = d :: tl →
      scsi_run_queue_sweep run (n + 1) h
        = if d ∈ (run d { h with starved_list := tl }).starved_list
          then run d { h with starved_list := tl }
          else scsi_run_queue_sweep run n
            (run d { h with starved_list := tl })) := by
  have hstarved := scsi_host_refused_starved s.shost s.sdev.sid hrefuse
  rcases hd : scsi_dev_queue_ready s.sdev with ⟨devok, sdev1, devplug⟩
  have hf := scsi_dev_queue_ready_fields s.sdev
  rw [hd] at hf hdev
  have hdevok : devok = true := hdev
  subst hdevok
  have hon1 : sdev1.online = s.sdev.online := hf.1
  have hsid1 : sdev1.sid = s.sdev.sid := hf.2.1
  have hbusy1 : sdev1.device_busy = s.sdev.device_busy := hf.2.2.1
  have hplug1 : devplug = false := hf.2.2.2 rfl
  subst hplug1
  rcases hh : scsi_host_queue_ready s.shost s.sdev.sid with
    ⟨hostok, shost1, hostplug⟩
  rw [hh] at hrefuse hstarved
  have hostko : hostok = false := hrefuse
  subst hostko
  have hstarved1 : shost1.starved_list = s.shost.starved_list ∨
      (shost1.starved_list = s.shost.starved_list ++ [s.sdev.sid] ∧
        s.sdev.sid ∉ s.shost.starved_list) := hstarved
  refine ⟨?_, ?_, ?_, ?_, ?_,
    fun h sid hnd hok => scsi_host_admitted_not_starved h sid hnd hok, ?_⟩
  · cases hacc : blk_account_rq req <;>
      simp [scsi_request_fn_iter, hhead, hd, hon1, honline, hsid1, hh,
        elv_dequeue_request, elv_requeue_request, elv_insert,
        elvInsertUnplugCheck, blk_plug_device, requeuedOf, setSoftBarrier,
        hord, hacc, apply_ite]
  · cases hacc : blk_account_rq req <;>
      simp [scsi_request_fn_iter, hhead, hd, hon1, honline, hsid1, hh,
        elv_dequeue_request, elv_requeue_request, elv_insert,
        elvInsertUnplugCheck, blk_plug_device, requeuedOf, setSoftBarrier,
        hord, hacc, apply_ite]
  · cases hacc : blk_account_rq req <;>
      simp [scsi_request_fn_iter, hhead, hd, hon1, honline, hsid1, hh,
        elv_dequeue_request, elv_requeue_request, elv_insert,
        elvInsertUnplugCheck, blk_plug_device, requeuedOf, setSoftBarrier,
        hord, hacc, apply_ite, hbusy1]
  · cases hacc : blk_account_rq req <;>
      simp [scsi_request_fn_iter, hhead, hd, hon1, honline, hsid1, hh,
        elv_dequeue_request, elv_requeue_request, elv_insert,
        elvInsertUnplugCheck, blk_plug_device, requeuedOf, setSoftBarrier,
        hord, hacc, apply_ite]
  · cases hacc : blk_account_rq req <;>
      simp [scsi_request_fn_iter, hhead, hd, hon1, honline, hsid1, hh,
        elv_dequeue_request, elv_requeue_request, elv_insert,
        elvInsertUnplugCheck, blk_plug_device, requeuedOf, setSoftBarrier,
        hord, hacc, apply_ite] <;>
      exact hstarved1
  · intro run n h d tl hcond hlist
    rw [scsi_run_queue_sweep]
    simp only [hcond, hlist, if_true]

/-- Witness for C3 at the concrete state `sC3W`: ready device, saturated
host — the request is front-requeued, the busy counters are restored, the
loop stops, and the device lands on the starvation list. -/
theorem C3_host_starvation_witness :
    ((scsi_request_fn_iter sC3W).2 = .stopped) ∧
    ((scsi_request_fn_iter sC3W).1.bq.queue_head = requeuedOf rqW :: []) ∧
    ((scsi_request_fn_iter sC3W).1.sdev.device_busy
      = sC3W.sdev.device_busy) ∧
    ((scsi_request_fn_iter sC3W).1.bq.in_flight = sC3W.bq.in_flight) ∧
    ((scsi_request_fn_iter sC3W).1.shost.starved_list
        = sC3W.shost.starved_list ∨
      ((scsi_request_fn_iter sC3W).1.shost.starved_list
          = sC3W.shost.starved_list ++ [sC3W.sdev.sid] ∧
        sC3W.sdev.sid ∉ sC3W.shost.starved_list)) ∧
    (∀ (h : ScsiHost) (sid : Nat), h.starved_list.Nodup →
      (scsi_host_queue_ready h sid).1 = true →
      sid ∉ (scsi_host_queue_ready h sid).2.1.starved_list) ∧
    (∀ (run : Nat → ScsiHost → ScsiHost) (n : Nat) (h : ScsiHost)
      (d : Nat) (tl : List Nat),
      sweepCond h = true → h.starved_list = d :: tl →
      scsi_run_queue_sweep run (n + 1) h
        = if d ∈ (run d { h with starved_list := tl }).starved_list
          then run d { h with starved_list := tl }
          else scsi_run_queue_sweep run n
            (run d { h with starved_list := tl })) :=
  C3_host_starvation sC3W rqW [] (by decide) (by decide) (by decide)
    (by decide) (by decide)

/-- Witness for C6: submit one request and dispatch it — the sorted count
returns to zero with the pending set empty. -/
theorem C6_sorted_count_accounting_witness :
    ([ElvOp.opSubmit rqW, ElvOp.opDispatch].foldl elvStep elvInit).nr_sorted
      = 0 :=
  (C6_sorted_count_accounting [ElvOp.opSubmit rqW, ElvOp.opDispatch]).2
    (by decide)
